import Mathlib

/-!
Verification development for `dataclass_mage/utils/typing_compat.py`.

The module under inspection is a type-annotation introspection layer: it
classifies raw annotation objects of the host type system, decomposes them
into origin and argument parts, extracts field metadata of structural
(`TypedDict`) and tuple-like (`NamedTuple`) record classes, and resolves
deferred (forward) references against the declaring class's module
namespace.  Two runtime strategies exist, selected once by the
`PY310_OR_ABOVE` flag; here the selection is an explicit boolean parameter
`py310` threaded through the strategy-dependent primitives.

Annotation objects are embedded as the inductive `PyAnn`; host-runtime
primitives that live outside the repository (the `typing` library's
argument decomposition, union construction, forward-reference evaluation)
are modelled from the spec's description of them and carry a doc comment
saying so.  Exceptions are modelled with `Except PyErr`.
-/

namespace TypingCompat

/-- Errors that the embedded operations can raise. -/
inductive PyErr where
  | attributeError
  | typeError
  | nameError
  deriving DecidableEq, Repr

/-- Embedded Python annotation objects.

* `concrete name` — an ordinary (non-generic) class such as `int` or `str`;
* `typeVar name` — a `typing.TypeVar`;
* `genericAlias variadic origin args` — a `typing._GenericAlias`
  (`variadic = true` marks the `typing._VariadicGenericAlias` subclass);
  union aliases are generic aliases whose origin is the `Union` special
  form;
* `specialForm name` — a `typing._SpecialForm` such as `Union`, `Optional`,
  `ClassVar`, `Literal`;
* `nativeAlias origin args` — a `types.GenericAlias` (PEP-585 value such as
  `list[int]`, modern runtimes only);
* `unionType args` — a `types.UnionType` (compact `X | Y` union value,
  modern runtimes only);
* `typedDictClass helper req opt` — a class produced by the structural-record
  (`TypedDict`) helper number `helper`, carrying its required and optional
  key names;
* `namedTupleClass fields` — a `typing.NamedTuple` subclass carrying its
  field-name-to-type table (`__annotations__`). -/
inductive PyAnn where
  | concrete (name : String)
  | typeVar (name : String)
  | genericAlias (variadic : Bool) (origin : PyAnn) (args : List PyAnn)
  | specialForm (name : String)
  | nativeAlias (origin : PyAnn) (args : List PyAnn)
  | unionType (args : List PyAnn)
  | typedDictClass (helper : Nat) (req : List String) (opt : List String)
  | namedTupleClass (fields : List (String × PyAnn))
  deriving Repr

mutual

/-- Structural equality of annotation objects, the model of the host's
`__eq__` on typing objects (used by the `in` checks and union
deduplication). -/
def beqAnn : PyAnn → PyAnn → Bool
  | .concrete a, .concrete b => a == b
  | .typeVar a, .typeVar b => a == b
  | .genericAlias v o as, .genericAlias v' o' as' =>
      v == v' && beqAnn o o' && beqAnnList as as'
  | .specialForm a, .specialForm b => a == b
  | .nativeAlias o as, .nativeAlias o' as' => beqAnn o o' && beqAnnList as as'
  | .unionType as, .unionType as' => beqAnnList as as'
  | .typedDictClass h r o, .typedDictClass h' r' o' =>
      h == h' && r == r' && o == o'
  | .namedTupleClass fs, .namedTupleClass fs' => beqFields fs fs'
  | _, _ => false

/-- Pointwise structural equality of annotation lists. -/
def beqAnnList : List PyAnn → List PyAnn → Bool
  | [], [] => true
  | a :: as, b :: bs => beqAnn a b && beqAnnList as bs
  | _, _ => false

/-- Pointwise structural equality of field tables. -/
def beqFields : List (String × PyAnn) → List (String × PyAnn) → Bool
  | [], [] => true
  | (n, a) :: fs, (n', b) :: fs' => n == n' && beqAnn a b && beqFields fs fs'
  | _, _ => false

end

instance : BEq PyAnn := ⟨beqAnn⟩

/-- Runtime type (metaclass) tags: the result of Python's `type(obj)` on the
annotation shapes above. -/
inductive PyType where
  | typeT
  | typeVarT
  | genericAliasT
  | variadicGenericAliasT
  | specialFormT
  | nativeAliasT
  | unionTypeT
  | typedDictMeta (helper : Nat)
  deriving DecidableEq, Repr

/-- The model of Python's `type(cls)`: each annotation shape maps to its
runtime metaclass tag.  Ordinary classes and `NamedTuple` subclasses have
metaclass `type`; a class built by `TypedDict` helper `k` has that helper's
distinguished metaclass. -/
def typeOf : PyAnn → PyType
  | .concrete _ => .typeT
  | .typeVar _ => .typeVarT
  | .genericAlias true _ _ => .variadicGenericAliasT
  | .genericAlias false _ _ => .genericAliasT
  | .specialForm _ => .specialFormT
  | .nativeAlias _ _ => .nativeAliasT
  | .unionType _ => .unionTypeT
  | .typedDictClass k _ _ => .typedDictMeta k
  | .namedTupleClass _ => .typeT

/-- The model of `isinstance(cls, typing._GenericAlias)` (the variadic alias
class is a subclass). -/
def isGenericAliasInst : PyAnn → Bool
  | .genericAlias _ _ _ => true
  | _ => false

/-- The model of `isinstance(cls, typing._VariadicGenericAlias)`. -/
def isVariadicAliasInst : PyAnn → Bool
  | .genericAlias v _ _ => v
  | _ => false

/-- The model of `isinstance(cls, typing._SpecialForm)`. -/
def isSpecialFormInst : PyAnn → Bool
  | .specialForm _ => true
  | _ => false

/-- The model of `isinstance(cls, types.GenericAlias)`. -/
def isNativeAliasInst : PyAnn → Bool
  | .nativeAlias _ _ => true
  | _ => false

/-- The model of `isinstance(cls, types.UnionType)`. -/
def isUnionTypeInst : PyAnn → Bool
  | .unionType _ => true
  | _ => false

/-- The recorded `__origin__` attribute of an annotation, when present:
generic aliases and native aliases carry one; compact union values, special
forms, type variables and ordinary classes do not. -/
def origin? : PyAnn → Option PyAnn
  | .genericAlias _ o _ => some o
  | .nativeAlias o _ => some o
  | _ => none

/-- The recorded `__args__` attribute of an annotation, when present. -/
def args? : PyAnn → Option (List PyAnn)
  | .genericAlias _ _ as => some as
  | .nativeAlias _ as => some as
  | .unionType as => some as
  | _ => none

/-- The canonical union marker `typing.Union`, a special form. -/
def UnionMarker : PyAnn := .specialForm "Union"

/-- The literal-value marker (`PyLiteral` in `type_def`, i.e.
`typing.Literal`), a special form. -/
def LiteralMarker : PyAnn := .specialForm "Literal"

/-- The class `typing.Generic`. -/
def GenericMarker : PyAnn := .concrete "typing.Generic"

/-- The class `typing._Protocol` of the legacy runtime. -/
def ProtocolMarker : PyAnn := .concrete "typing._Protocol"

/-- Order-preserving duplicate elimination keeping the first occurrence of
each element (the behavior of the host's seen-set loops). -/
def dedupFirst {α : Type} [BEq α] (l : List α) : List α :=
  l.foldl (fun acc a => if acc.contains a then acc else acc.concat a) []

mutual

/-- Free type variables of an annotation, in first-occurrence order and with
repetitions; the host computes `__parameters__` from this collection. -/
def collectVars : PyAnn → List String
  | .typeVar n => [n]
  | .genericAlias _ _ as => collectVarsList as
  | .nativeAlias _ as => collectVarsList as
  | .unionType as => collectVarsList as
  | _ => []

/-- Free type variables of a list of annotations, concatenated in order. -/
def collectVarsList : List PyAnn → List String
  | [] => []
  | a :: as => collectVars a ++ collectVarsList as

end

/-- The recorded `__parameters__` tuple of an annotation: its free type
variables in first-occurrence order, deduplicated. -/
def parametersOf (cls : PyAnn) : List String :=
  dedupFirst (collectVars cls)

/-- Splice the argument lists of union aliases into the surrounding argument
list, the flattening step of the host's union constructor. -/
def spliceUnions (as : List PyAnn) : List PyAnn :=
  as.flatMap fun a =>
    match a with
    | .genericAlias v o args =>
        if o == UnionMarker then args else [.genericAlias v o args]
    | b => [b]

/-- Modelled from the spec: the host's union constructor (`typing.Union[...]`,
outside this repository).  Nested union arguments are flattened, duplicates
are eliminated keeping the first occurrence, and a single remaining
alternative collapses to that alternative; otherwise the result is a generic
alias whose origin is the union marker. -/
def mkUnion (as : List PyAnn) : PyAnn :=
  match dedupFirst (spliceUnions as) with
  | [a] => a
  | l => .genericAlias false UnionMarker l

mutual

/-- Modelled from the spec: substitution of type variables during generic
alias subscription ("full substitution" of the argument-extraction
description).  Union aliases are rebuilt through the union constructor, so
its flattening simplifications re-apply after substitution. -/
def substAnn (σ : List (String × PyAnn)) : PyAnn → PyAnn
  | .typeVar n =>
      match σ.lookup n with
      | some v => v
      | none => .typeVar n
  | .genericAlias v o as =>
      if o == UnionMarker then mkUnion (substAnnList σ as)
      else .genericAlias v o (substAnnList σ as)
  | .nativeAlias o as => .nativeAlias o (substAnnList σ as)
  | .unionType as => .unionType (substAnnList σ as)
  | c => c

/-- Pointwise substitution over an argument list. -/
def substAnnList (σ : List (String × PyAnn)) : List PyAnn → List PyAnn
  | [] => []
  | a :: as => substAnn σ a :: substAnnList σ as

end

/-- Modelled from the spec: the compact union operator of modern runtimes
(`X | Y` on types), which flattens compact union operands and eliminates
duplicates like the union constructor does. -/
def pyOr (a b : PyAnn) : PyAnn :=
  let sides := [a, b].flatMap fun x =>
    match x with
    | .unionType args => args
    | y => [y]
  match dedupFirst sides with
  | [x] => x
  | l => .unionType l

/-- Modelled from the spec: the host's subscription operation `base[vals]`.
Subscripting the union special form invokes the union constructor;
subscripting a parameterized generic alias substitutes its recorded type
parameters by the supplied values (a union alias is rebuilt through the
union constructor); subscripting another special form records it as the
origin of a new alias; subscripting an ordinary class builds a native
(PEP-585) alias on modern runtimes and is a type error on legacy ones. -/
def pySubscript (py310 : Bool) (base : PyAnn) (vals : List PyAnn) :
    Except PyErr PyAnn :=
  match base with
  | .specialForm n =>
      if n == "Union" then .ok (mkUnion vals)
      else .ok (.genericAlias false (.specialForm n) vals)
  | .genericAlias v o as =>
      let ps := parametersOf (.genericAlias v o as)
      if ps.length == vals.length then
        let σ := ps.zip vals
        if o == UnionMarker then .ok (mkUnion (substAnnList σ as))
        else .ok (.genericAlias v o (substAnnList σ as))
      else .error .typeError
  | .concrete c =>
      if py310 then .ok (.nativeAlias (.concrete c) vals)
      else .error .typeError
  | _ => .error .typeError

/-- Modelled from the spec: `PyTypedDicts` (`type_def`, not under `src/`)
lists the known structural-record (`TypedDict`) helpers, one per providing
library; each is identified here by its index. -/
def PyTypedDicts : List Nat := [0, 1]

/-- Metaclasses recorded at initialization: for each known `TypedDict`
helper, a real subclass is instantiated and the runtime type of that class
is appended (module top level, lines 14-23). -/
def TypedDictTypes : List PyType :=
  PyTypedDicts.map PyType.typedDictMeta

/-- The recorded `__required_keys__` and `__optional_keys__` attributes,
present exactly on classes produced by a `TypedDict` helper. -/
def typedDictKeys? : PyAnn → Option (List String × List String)
  | .typedDictClass _ r o => some (r, o)
  | _ => none

/-- Source `get_keys_for_typed_dict(cls)` (lines 54-59): returns the pair
`(cls.__required_keys__, cls.__optional_keys__)`; the attribute accesses
raise when the attributes are absent, and the function takes no
raise-vs-fallback flag. -/
def get_keys_for_typed_dict (cls : PyAnn) :
    Except PyErr (List String × List String) :=
  match typedDictKeys? cls with
  | some p => .ok p
  | none => .error .attributeError

/-- Source `_is_base_generic(cls)` (lines 72-85): for a generic alias,
`False` when its origin is `typing.Generic` or `typing._Protocol`, `True`
when it is a variadic alias, otherwise `len(cls.__parameters__) > 0`; for a
special form, membership of its name in `{ClassVar, Union, Optional}`; any
other shape gives `False`. -/
def _is_base_generic (cls : PyAnn) : Bool :=
  if isGenericAliasInst cls then
    match cls with
    | .genericAlias v o as =>
        if o == GenericMarker || o == ProtocolMarker then false
        else if v then true
        else (parametersOf (.genericAlias v o as)).length > 0
    | _ => false
  else if isSpecialFormInst cls then
    match cls with
    | .specialForm n => n == "ClassVar" || n == "Union" || n == "Optional"
    | _ => false
  else false

/-- Source `is_literal(cls)` (lines 88-92): compares `cls.__origin__` with
the literal marker, and the `except AttributeError` branch turns a missing
origin into `False`. -/
def is_literal (cls : PyAnn) : Bool :=
  match origin? cls with
  | some o => o == LiteralMarker
  | none => false

/-- Modelled from the spec: the runtime argument-decomposition primitive
(`typing.get_args` on modern runtimes, the `typing_extensions` shim on
legacy ones; both outside this repository): the recorded argument tuple of
a parameterized annotation, and the empty tuple for anything without
recorded arguments. -/
def _get_args (cls : PyAnn) : List PyAnn :=
  (args? cls).getD []

/-- Source `_get_origin(cls, raise_)` (modern strategy, lines 112-121): a
compact union value maps to the canonical union marker before the origin
attribute is consulted; otherwise the recorded origin is returned, and a
missing origin raises when `raise_` is set and falls back to `cls` itself
otherwise.  The legacy strategy (lines 136-142) is the same function
without the compact-union branch; `py310` selects the strategy. -/
def _get_origin (py310 : Bool) (cls : PyAnn) (raise_ : Bool) :
    Except PyErr PyAnn :=
  if py310 && isUnionTypeInst cls then .ok UnionMarker
  else
    match origin? cls with
    | some o => .ok o
    | none => if raise_ then .error .attributeError else .ok cls

/-- The recorded `__annotations__` table of a class, as read by the
named-tuple field extractor; present on `NamedTuple` subclasses. -/
def fieldAnns? : PyAnn → Option (List (String × PyAnn))
  | .namedTupleClass fs => some fs
  | _ => none

/-- Source `_get_named_tuple_field_types(cls, raise_=True)` (lines
145-155): returns `cls.__annotations__`, propagating the attribute failure
when `raise_` is set and returning `None` otherwise.  The source default
for `raise_` is `True`. -/
def _get_named_tuple_field_types (cls : PyAnn) (raise_ : Bool) :
    Except PyErr (Option (List (String × PyAnn))) :=
  match fieldAnns? cls with
  | some a => .ok (some a)
  | none => if raise_ then .error .attributeError else .ok none

/-- Source `is_typed_dict(cls)` (lines 158-162): `type(cls) in
TypedDictTypes`. -/
def is_typed_dict (cls : PyAnn) : Bool :=
  TypedDictTypes.contains (typeOf cls)

/-- Source `is_generic(cls)` (lines 165-173): `isinstance(cls,
_BASE_GENERIC_TYPES)`, where the modern tuple (lines 100-105) also admits
native aliases and compact union values and the legacy tuple (lines
126-129) admits only generic aliases and special forms. -/
def is_generic (py310 : Bool) (cls : PyAnn) : Bool :=
  isGenericAliasInst cls || isSpecialFormInst cls ||
    (py310 && (isNativeAliasInst cls || isUnionTypeInst cls))

/-- Source `is_base_generic(cls)` (lines 176-180): delegates to
`_is_base_generic`. -/
def is_base_generic (cls : PyAnn) : Bool :=
  _is_base_generic cls

/-- Source `get_args(cls)` (lines 183-195): delegates to the bound
argument-decomposition primitive. -/
def get_args (cls : PyAnn) : List PyAnn :=
  _get_args cls

/-- Source `get_origin(cls, raise_=False)` (lines 199-221): delegates to
the bound `_get_origin` strategy.  The source default for `raise_` is
`False`. -/
def get_origin (py310 : Bool) (cls : PyAnn) (raise_ : Bool) :
    Except PyErr PyAnn :=
  _get_origin py310 cls raise_

/-- Source `get_named_tuple_field_types(cls, raise_=True)` (lines 224-228):
delegates to `_get_named_tuple_field_types`. -/
def get_named_tuple_field_types (cls : PyAnn) (raise_ : Bool) :
    Except PyErr (Option (List (String × PyAnn))) :=
  _get_named_tuple_field_types cls raise_

/-- Abstract syntax of deferred-reference text: a name, a subscription
`base[args]`, or the lightweight compact-union operator `a | b`. -/
inductive FwdExpr where
  | name (s : String)
  | subscript (base : FwdExpr) (idx : List FwdExpr)
  | orExpr (a b : FwdExpr)
  deriving Repr

mutual

/-- Modelled from the spec: `repl_or_with_union` (`string_conv`, not under
`src/`), the legacy rewriting of deferred-reference text that turns every
occurrence of the lightweight `X | Y` union notation into the heavy
`Union[X, Y]` form before a placeholder is built. -/
def repl_or_with_union : FwdExpr → FwdExpr
  | .name s => .name s
  | .subscript b i => .subscript (repl_or_with_union b) (replList i)
  | .orExpr a b =>
      .subscript (.name "Union") [repl_or_with_union a, repl_or_with_union b]

/-- Pointwise rewriting over subscription arguments. -/
def replList : List FwdExpr → List FwdExpr
  | [] => []
  | a :: as => repl_or_with_union a :: replList as

end

/-- Modelled from the spec: `PyForwardRef` (`type_def`, not under `src/`),
the deferred-reference placeholder carrying the parsed text and the
`is_argument` syntactic-context flag. -/
structure PyForwardRef where
  arg : FwdExpr
  is_argument : Bool
  deriving Repr

/-- Source `_process_forward_annotation(base_type)`: the modern strategy
(lines 109-110) wraps the raw text as-is; the legacy strategy (lines
133-134) first applies the union rewriting.  Both pass
`is_argument=False`. -/
def _process_forward_ann (py310 : Bool) (e : FwdExpr) : PyForwardRef :=
  if py310 then ⟨e, false⟩ else ⟨repl_or_with_union e, false⟩

/-- Source `_TYPING_LOCALS` (line 107 and line 131): the local-namespace
table handed to the evaluator; `None` on the modern strategy and the
one-entry table mapping `Union` to the union marker on the legacy one. -/
def _TYPING_LOCALS (py310 : Bool) : Option (List (String × PyAnn)) :=
  if py310 then none else some [("Union", UnionMarker)]

/-- A typing generic alias in its bare (unparameterized) form, as the
`typing` module exports it: origin `name`, one free parameter per entry of
`ps`. -/
def bareGeneric (name : String) (ps : List String) : PyAnn :=
  .genericAlias false (.concrete name) (ps.map .typeVar)

/-- Source `_get_typing_locals()` (lines 26-51): the table mapping the
lowercase builtin container names (and the ordered/default/counting/chained
mapping aliases) to their `typing` generic equivalents.  The function is
defined at module level but never called. -/
def _get_typing_locals : List (String × PyAnn) :=
  [("Union", UnionMarker),
   ("tuple", .genericAlias true (.concrete "tuple") [.typeVar "T"]),
   ("list", bareGeneric "list" ["T"]),
   ("dict", bareGeneric "dict" ["KT", "VT"]),
   ("set", bareGeneric "set" ["T"]),
   ("frozenset", bareGeneric "frozenset" ["T"]),
   ("type", bareGeneric "type" ["CT"]),
   ("deque", bareGeneric "collections.deque" ["T"]),
   ("defaultdict", bareGeneric "collections.defaultdict" ["KT", "VT"]),
   ("OrderedDict", bareGeneric "collections.OrderedDict" ["KT", "VT"]),
   ("Counter", bareGeneric "collections.Counter" ["T"]),
   ("ChainMap", bareGeneric "collections.ChainMap" ["KT", "VT"])]

/-- Modelled from the spec: the builtin namespace the evaluator falls back
to after locals and globals, holding the ordinary builtin classes. -/
def builtinsEnv : List (String × PyAnn) :=
  [("int", .concrete "int"), ("str", .concrete "str"),
   ("bool", .concrete "bool"), ("float", .concrete "float"),
   ("list", .concrete "list"), ("dict", .concrete "dict"),
   ("set", .concrete "set"), ("frozenset", .concrete "frozenset"),
   ("tuple", .concrete "tuple"), ("type", .concrete "type")]

mutual

/-- Modelled from the spec: evaluation of deferred-reference text against an
environment (the flattened locals-then-globals-then-builtins name lookup of
the host evaluator).  Names not bound anywhere are a name error; the
compact union operator builds a compact union value on modern runtimes and
is a type error on legacy ones. -/
def evalExpr (py310 : Bool) (env : List (String × PyAnn)) :
    FwdExpr → Except PyErr PyAnn
  | .name s =>
      match env.lookup s with
      | some v => .ok v
      | none => .error .nameError
  | .subscript b i => do
      let bv ← evalExpr py310 env b
      let iv ← evalExprList py310 env i
      pySubscript py310 bv iv
  | .orExpr a b => do
      let av ← evalExpr py310 env a
      let bv ← evalExpr py310 env b
      if py310 then .ok (pyOr av bv) else .error .typeError

/-- Evaluation of a subscription argument list, left to right. -/
def evalExprList (py310 : Bool) (env : List (String × PyAnn)) :
    List FwdExpr → Except PyErr (List PyAnn)
  | [] => .ok []
  | a :: as => do
      let v ← evalExpr py310 env a
      let vs ← evalExprList py310 env as
      .ok (v :: vs)

end

/-- Modelled from the spec: `typing._eval_type` (outside this repository),
which evaluates a deferred-reference placeholder against the supplied
global and local namespaces. -/
def _eval_type (py310 : Bool) (fr : PyForwardRef)
    (globalns : List (String × PyAnn))
    (localns : Option (List (String × PyAnn))) : Except PyErr PyAnn :=
  evalExpr py310 ((localns.getD []) ++ globalns ++ builtinsEnv) fr.arg

/-- A declaring class, reduced to what the resolver reads from it: the
`__dict__` of its defining module (`sys.modules[cls.__module__]`). -/
structure PyClass where
  module_globals : List (String × PyAnn)

/-- Values admitted by the `FREF` type variable (modelled from the spec:
`type_def`, not under `src/`, constrains `FREF` to raw text and placeholder
forms): raw deferred text, a pre-built placeholder, or an already-resolved
annotation. -/
inductive FREFVal where
  | text (e : FwdExpr)
  | fref (r : PyForwardRef)
  | ann (a : PyAnn)
  deriving Repr

/-- Source `eval_forward_ref(base_type, cls)` (lines 238-251): textual input
is first turned into a placeholder by the strategy's
`_process_forward_annotation`; the placeholder is then evaluated against
the declaring class's module globals and the strategy's `_TYPING_LOCALS`
table.  A non-deferred value is returned unchanged by the underlying
evaluator. -/
def eval_forward_ref (py310 : Bool) (base_type : FREFVal) (cls : PyClass) :
    Except PyErr PyAnn :=
  match base_type with
  | .text e =>
      _eval_type py310 (_process_forward_ann py310 e) cls.module_globals
        (_TYPING_LOCALS py310)
  | .fref r =>
      _eval_type py310 r cls.module_globals (_TYPING_LOCALS py310)
  | .ann a => .ok a

/-- Source `eval_forward_ref_if_needed(base_type, base_cls)` (lines
254-264): inputs matching the deferred-reference constraints (raw text or a
placeholder) are resolved through `eval_forward_ref`; anything else is
returned unchanged. -/
def eval_forward_ref_if_needed (py310 : Bool) (base_type : FREFVal)
    (base_cls : PyClass) : Except PyErr PyAnn :=
  match base_type with
  | .ann a => .ok a
  | d => eval_forward_ref py310 d base_cls

/-- Structural equality with the literal marker agrees with propositional
equality: only a special form named `Literal` compares equal to it. -/
theorem beq_literalMarker_iff (o : PyAnn) :
    (o == LiteralMarker) = true ↔ o = LiteralMarker := by
  cases o <;> simp [instBEqPyAnn, beqAnn, LiteralMarker]

/-- C1: `get_args` returns the ordered tuple of recorded type arguments
after full substitution, applying the union constructor's flattening with
duplicate elimination but no single-element collapse: a
mapping-of-(text,integer) annotation gives the pair of the text and integer
types, every plain concrete type gives the empty tuple, and subscripting
the union of `(int, Union[T, int], str)` with `int` gives exactly
`(int, str)` under either runtime strategy. -/
theorem c1_get_args_subst_flatten :
    (∀ (v : Bool) (o : PyAnn) (as : List PyAnn),
        get_args (.genericAlias v o as) = as) ∧
    (∀ k v : PyAnn,
        get_args (.genericAlias false (.concrete "dict") [k, v]) = [k, v]) ∧
    (∀ name : String, get_args (.concrete name) = []) ∧
    (∀ py310 : Bool,
        pySubscript py310
          (mkUnion [.concrete "int",
                    mkUnion [.typeVar "T", .concrete "int"], .concrete "str"])
          [.concrete "int"] =
          .ok (.genericAlias false UnionMarker
                [.concrete "int", .concrete "str"])) ∧
    get_args (.genericAlias false UnionMarker
        [.concrete "int", .concrete "str"]) =
      [.concrete "int", .concrete "str"] :=
  ⟨fun _ _ _ => rfl, fun _ _ => rfl, fun _ => rfl,
   fun py310 => by cases py310 <;> rfl, rfl⟩

/-- C2 counterexample: under the modern strategy the compact union value
`int | str` has no recorded origin attribute, yet `get_origin` with the
raise flag set returns the union marker instead of raising the no-origin
failure, and with the flag clear it returns the union marker rather than
the annotation itself. -/
theorem c2_get_origin_counterexample :
    origin? (.unionType [.concrete "int", .concrete "str"]) = none ∧
    get_origin true (.unionType [.concrete "int", .concrete "str"]) true =
      .ok UnionMarker ∧
    get_origin true (.unionType [.concrete "int", .concrete "str"]) false ≠
      .ok (.unionType [.concrete "int", .concrete "str"]) := by
  refine ⟨rfl, rfl, ?_⟩
  simp [get_origin, _get_origin, isUnionTypeInst, UnionMarker]

/-- C2 (amended): for every annotation without a recorded origin attribute
that is not a compact union value handled by the modern strategy,
`get_origin` with the raise flag set raises the no-origin failure and with
the flag clear returns the annotation itself unchanged; in particular every
concrete non-generic type is not generic and maps to itself. -/
theorem c2_get_origin_fallback :
    (∀ (py310 : Bool) (cls : PyAnn), origin? cls = none →
        (py310 && isUnionTypeInst cls) = false →
        get_origin py310 cls true = .error .attributeError ∧
        get_origin py310 cls false = .ok cls) ∧
    (∀ (py310 : Bool) (name : String),
        is_generic py310 (.concrete name) = false ∧
        get_origin py310 (.concrete name) false = .ok (.concrete name)) :=
  ⟨fun py310 cls h1 h2 => by
      constructor <;> simp [get_origin, _get_origin, h1, h2],
   fun py310 name =>
      ⟨by simp [is_generic, isGenericAliasInst, isSpecialFormInst,
                isNativeAliasInst, isUnionTypeInst],
       by cases py310 <;> rfl⟩⟩

/-- C2 witness: the amended fallback evaluated on the concrete class `int`
under the legacy strategy. -/
theorem c2_get_origin_fallback_witness :
    get_origin false (.concrete "int") true = .error .attributeError ∧
    get_origin false (.concrete "int") false = .ok (.concrete "int") :=
  c2_get_origin_fallback.1 false (.concrete "int") rfl rfl

/-- C3: under the modern strategy, `get_origin` maps every compact union
value to the canonical union marker, whatever the raise flag. -/
theorem c3_uniontype_origin :
    ∀ (args : List PyAnn) (raise_ : Bool),
      get_origin true (.unionType args) raise_ = .ok UnionMarker :=
  fun _ _ => rfl

/-- C4: `is_base_generic` implements exactly the documented decision rule:
a generic alias whose origin is the generic or protocol marker is not base
generic; a variadic alias with another origin is; any other alias is base
generic iff it still carries unbound type parameters; a special form is
base generic iff it is named `ClassVar`, `Union` or `Optional`; every other
shape is not.  Consequently the bare sequence generic is base generic and
the integer-parameterized one is not. -/
theorem c4_is_base_generic_rule :
    (∀ (v : Bool) (o : PyAnn) (as : List PyAnn),
        (o == GenericMarker || o == ProtocolMarker) = true →
        is_base_generic (.genericAlias v o as) = false) ∧
    (∀ (o : PyAnn) (as : List PyAnn),
        (o == GenericMarker || o == ProtocolMarker) = false →
        is_base_generic (.genericAlias true o as) = true) ∧
    (∀ (o : PyAnn) (as : List PyAnn),
        (o == GenericMarker || o == ProtocolMarker) = false →
        is_base_generic (.genericAlias false o as) =
          decide (0 < (parametersOf (.genericAlias false o as)).length)) ∧
    (∀ n : String,
        is_base_generic (.specialForm n) =
          (n == "ClassVar" || n == "Union" || n == "Optional")) ∧
    (∀ name : String, is_base_generic (.concrete name) = false) ∧
    (∀ name : String, is_base_generic (.typeVar name) = false) ∧
    (∀ (o : PyAnn) (as : List PyAnn),
        is_base_generic (.nativeAlias o as) = false) ∧
    (∀ as : List PyAnn, is_base_generic (.unionType as) = false) ∧
    (∀ (k : Nat) (r op : List String),
        is_base_generic (.typedDictClass k r op) = false) ∧
    (∀ fs : List (String × PyAnn),
        is_base_generic (.namedTupleClass fs) = false) ∧
    is_base_generic (bareGeneric "Sequence" ["T"]) = true ∧
    is_base_generic
      (.genericAlias false (.concrete "Sequence") [.concrete "int"]) =
      false :=
  ⟨fun v o as h => by
      simp [is_base_generic, _is_base_generic, isGenericAliasInst, h],
   fun o as h => by
      simp [is_base_generic, _is_base_generic, isGenericAliasInst, h],
   fun o as h => by
      simp [is_base_generic, _is_base_generic, isGenericAliasInst, h],
   fun n => rfl, fun _ => rfl, fun _ => rfl, fun _ _ => rfl, fun _ => rfl,
   fun _ _ _ => rfl, fun _ => rfl, rfl, rfl⟩

/-- C4 witness: the decision rule evaluated on a `Generic`-originated
alias, a variadic callable-like alias, and the bare sequence generic. -/
theorem c4_is_base_generic_rule_witness :
    is_base_generic (.genericAlias false GenericMarker [.typeVar "T"]) =
      false ∧
    is_base_generic (.genericAlias true (.concrete "Callable") []) = true ∧
    is_base_generic (.genericAlias false (.concrete "Sequence")
        [.typeVar "T"]) =
      decide (0 < (parametersOf (.genericAlias false (.concrete "Sequence")
        [.typeVar "T"])).length) :=
  ⟨c4_is_base_generic_rule.1 false GenericMarker [.typeVar "T"] rfl,
   c4_is_base_generic_rule.2.1 (.concrete "Callable") [] rfl,
   c4_is_base_generic_rule.2.2.1 (.concrete "Sequence") [.typeVar "T"] rfl⟩

/-- C5: `is_literal` is true exactly when the annotation's recorded origin
is the literal-value marker, and an annotation with no origin at all gives
false rather than an error. -/
theorem c5_is_literal_origin :
    (∀ cls : PyAnn,
        is_literal cls = true ↔ origin? cls = some LiteralMarker) ∧
    (∀ cls : PyAnn, origin? cls = none → is_literal cls = false) ∧
    is_literal (.genericAlias false LiteralMarker [.concrete "42"]) = true ∧
    (∀ name : String, is_literal (.concrete name) = false) :=
  ⟨fun cls => by
      cases h : origin? cls <;>
        simp [is_literal, h, beq_literalMarker_iff],
   fun cls h => by simp [is_literal, h],
   rfl, fun _ => rfl⟩

/-- C5 witness: the characterization evaluated on a literal-value
annotation and on a plain concrete class that has no origin. -/
theorem c5_is_literal_origin_witness :
    is_literal (.genericAlias false LiteralMarker [.concrete "42"]) = true ∧
    is_literal (.concrete "C") = false :=
  ⟨(c5_is_literal_origin.1
      (.genericAlias false LiteralMarker [.concrete "42"])).mpr rfl,
   c5_is_literal_origin.2.1 (.concrete "C") rfl⟩

/-- C6 counterexample: the legacy local-namespace table actually handed to
the evaluator has no entry for `list`, and evaluating the deferred text
`list[int]` under the legacy strategy fails with a type error (the builtin
`list` found instead is not subscriptable there) rather than resolving. -/
theorem c6_typing_locals_counterexample :
    List.lookup "list" ((_TYPING_LOCALS false).getD []) = none ∧
    eval_forward_ref false
        (.text (.subscript (.name "list") [.name "int"])) ⟨[]⟩ =
      .error .typeError :=
  ⟨rfl, rfl⟩

/-- C6 (amended): under the legacy strategy, forward-reference evaluation
uses a local-namespace table containing only the union marker; the full
table mapping the lowercase builtin container names and the
ordered/default/counting/chained mapping aliases to their generic
equivalents is built by the module's unused helper, so only the heavy
`Union[...]` deferred syntax resolves through the table. -/
theorem c6_typing_locals_actual :
    _TYPING_LOCALS false = some [("Union", UnionMarker)] ∧
    List.lookup "Union" _get_typing_locals = some UnionMarker ∧
    List.lookup "tuple" _get_typing_locals =
      some (.genericAlias true (.concrete "tuple") [.typeVar "T"]) ∧
    List.lookup "list" _get_typing_locals = some (bareGeneric "list" ["T"]) ∧
    List.lookup "dict" _get_typing_locals =
      some (bareGeneric "dict" ["KT", "VT"]) ∧
    List.lookup "set" _get_typing_locals = some (bareGeneric "set" ["T"]) ∧
    List.lookup "frozenset" _get_typing_locals =
      some (bareGeneric "frozenset" ["T"]) ∧
    List.lookup "type" _get_typing_locals =
      some (bareGeneric "type" ["CT"]) ∧
    List.lookup "deque" _get_typing_locals =
      some (bareGeneric "collections.deque" ["T"]) ∧
    List.lookup "defaultdict" _get_typing_locals =
      some (bareGeneric "collections.defaultdict" ["KT", "VT"]) ∧
    List.lookup "OrderedDict" _get_typing_locals =
      some (bareGeneric "collections.OrderedDict" ["KT", "VT"]) ∧
    List.lookup "Counter" _get_typing_locals =
      some (bareGeneric "collections.Counter" ["T"]) ∧
    List.lookup "ChainMap" _get_typing_locals =
      some (bareGeneric "collections.ChainMap" ["KT", "VT"]) ∧
    eval_forward_ref false
        (.text (.subscript (.name "Union") [.name "int", .name "str"]))
        ⟨[]⟩ =
      .ok (.genericAlias false UnionMarker
            [.concrete "int", .concrete "str"]) :=
  ⟨rfl, rfl, rfl, rfl, rfl, rfl, rfl, rfl, rfl, rfl, rfl, rfl, rfl, rfl⟩

/-- C7: `eval_forward_ref_if_needed` passes every non-deferred value
through unchanged without attempting resolution, delegates exactly the
deferred inputs to `eval_forward_ref`, feeding a resolved result back in is
a no-op, and resolving the same deferred text against the same declaring
class is deterministic. -/
theorem c7_eval_if_needed_idempotent :
    (∀ (py310 : Bool) (a : PyAnn) (c : PyClass),
        eval_forward_ref_if_needed py310 (.ann a) c = .ok a) ∧
    (∀ (py310 : Bool) (e : FwdExpr) (c : PyClass) (t : PyAnn),
        eval_forward_ref py310 (.text e) c = .ok t →
        eval_forward_ref_if_needed py310 (.ann t) c = .ok t) ∧
    (∀ (py310 : Bool) (e : FwdExpr) (c : PyClass),
        eval_forward_ref_if_needed py310 (.text e) c =
          eval_forward_ref py310 (.text e) c) ∧
    (∀ (py310 : Bool) (r : PyForwardRef) (c : PyClass),
        eval_forward_ref_if_needed py310 (.fref r) c =
          eval_forward_ref py310 (.fref r) c) ∧
    (∀ (py310 : Bool) (e : FwdExpr) (c : PyClass) (t t' : PyAnn),
        eval_forward_ref py310 (.text e) c = .ok t →
        eval_forward_ref py310 (.text e) c = .ok t' → t = t') :=
  ⟨fun _ _ _ => rfl, fun _ _ _ _ _ => rfl, fun _ _ _ => rfl,
   fun _ _ _ => rfl,
   fun _ _ _ _ _ h h' => Except.ok.inj (h.symm.trans h')⟩

/-- C7 witness: resolving the deferred text `int` under the legacy
strategy, then feeding the resolved concrete type back in, is a no-op. -/
theorem c7_eval_if_needed_idempotent_witness :
    eval_forward_ref_if_needed false (.ann (.concrete "int")) ⟨[]⟩ =
      .ok (.concrete "int") :=
  c7_eval_if_needed_idempotent.2.1 false (.name "int") ⟨[]⟩
    (.concrete "int") rfl

/-- C8: under the legacy strategy, evaluating deferred text in the
lightweight `X | Y` notation gives exactly the same result as evaluating
the heavy `Union[X, Y]` text, because the placeholder builder rewrites the
lightweight notation into the heavy union form before evaluation; on the
`int`/`str` instance both resolve to the flattened union alias. -/
theorem c8_or_rewrites_to_union :
    (∀ (a b : FwdExpr) (c : PyClass),
        eval_forward_ref false (.text (.orExpr a b)) c =
          eval_forward_ref false
            (.text (.subscript (.name "Union") [a, b])) c) ∧
    eval_forward_ref false
        (.text (.orExpr (.name "int") (.name "str"))) ⟨[]⟩ =
      .ok (.genericAlias false UnionMarker
            [.concrete "int", .concrete "str"]) ∧
    eval_forward_ref false
        (.text (.subscript (.name "Union") [.name "int", .name "str"]))
        ⟨[]⟩ =
      .ok (.genericAlias false UnionMarker
            [.concrete "int", .concrete "str"]) :=
  ⟨fun _ _ _ => rfl, rfl, rfl⟩

/-- C9 counterexample: probing a plain concrete class with the
structural-record field query throws the attribute failure — the function
takes no raise-vs-fallback flag that could suppress it — and the
tuple-record field query also throws under its source default
`raise_=True`. -/
theorem c9_flag_policy_counterexample :
    get_keys_for_typed_dict (.concrete "C") = .error .attributeError ∧
    get_named_tuple_field_types (.concrete "C") true =
      .error .attributeError :=
  ⟨rfl, rfl⟩

/-- C9 (amended): `get_origin` and `get_named_tuple_field_types` accept an
explicit raise-vs-fallback flag, but only `get_origin` defaults to the
permissive fallback; `get_named_tuple_field_types` defaults to the strict
flag, and `get_keys_for_typed_dict` takes no flag at all, failing
unconditionally with the missing-field-metadata (attribute) failure
whenever the required/optional key attributes are absent and returning the
recorded key pair otherwise. -/
theorem c9_flag_policy_actual :
    (∀ (py310 : Bool) (cls : PyAnn), origin? cls = none →
        (py310 && isUnionTypeInst cls) = false →
        get_origin py310 cls false = .ok cls ∧
        get_origin py310 cls true = .error .attributeError) ∧
    (∀ cls : PyAnn, fieldAnns? cls = none →
        get_named_tuple_field_types cls false = .ok none ∧
        get_named_tuple_field_types cls true = .error .attributeError) ∧
    (∀ cls : PyAnn, typedDictKeys? cls = none →
        get_keys_for_typed_dict cls = .error .attributeError) ∧
    (∀ (k : Nat) (r op : List String),
        get_keys_for_typed_dict (.typedDictClass k r op) = .ok (r, op)) :=
  ⟨fun py310 cls h1 h2 => by
      constructor <;> simp [get_origin, _get_origin, h1, h2],
   fun cls h => by
      constructor <;>
        simp [get_named_tuple_field_types, _get_named_tuple_field_types, h],
   fun cls h => by simp [get_keys_for_typed_dict, h],
   fun _ _ _ => rfl⟩

/-- C9 witness: the actual flag policy evaluated on a plain concrete class
and on a structural-record class with one required and one optional key. -/
theorem c9_flag_policy_actual_witness :
    get_named_tuple_field_types (.concrete "C") false = .ok none ∧
    get_keys_for_typed_dict (.concrete "C") = .error .attributeError ∧
    get_keys_for_typed_dict (.typedDictClass 0 ["a"] ["c"]) =
      .ok (["a"], ["c"]) :=
  ⟨(c9_flag_policy_actual.2.1 (.concrete "C") rfl).1,
   c9_flag_policy_actual.2.2.1 (.concrete "C") rfl,
   c9_flag_policy_actual.2.2.2 0 ["a"] ["c"]⟩

/-- C10: `is_typed_dict` is a total boolean predicate whose verdict depends
only on the runtime type (metaclass) of its input — no attribute access or
subclass check — and membership is exact equality against the metaclasses
recorded at initialization from the known structural-record helpers: classes
made by a recorded helper are accepted, every other shape (ordinary classes,
generic aliases, tuple-record classes, or classes of an unrecorded helper
metaclass) is rejected without error. -/
theorem c10_is_typed_dict_metaclass :
    (∀ a b : PyAnn, typeOf a = typeOf b →
        is_typed_dict a = is_typed_dict b) ∧
    (∀ (k : Nat) (r op : List String),
        is_typed_dict (.typedDictClass k r op) =
          TypedDictTypes.contains (.typedDictMeta k)) ∧
    (∀ r op : List String, is_typed_dict (.typedDictClass 0 r op) = true) ∧
    (∀ r op : List String, is_typed_dict (.typedDictClass 1 r op) = true) ∧
    (∀ r op : List String, is_typed_dict (.typedDictClass 2 r op) = false) ∧
    (∀ name : String, is_typed_dict (.concrete name) = false) ∧
    (∀ (v : Bool) (o : PyAnn) (as : List PyAnn),
        is_typed_dict (.genericAlias v o as) = false) ∧
    (∀ fs : List (String × PyAnn),
        is_typed_dict (.namedTupleClass fs) = false) :=
  ⟨fun a b h => by simp [is_typed_dict, h],
   fun _ _ _ => rfl, fun _ _ => rfl, fun _ _ => rfl, fun _ _ => rfl,
   fun _ => rfl, fun v _ _ => by cases v <;> rfl, fun _ => rfl⟩

/-- C10 witness: the metaclass-invariance clause evaluated on two distinct
ordinary classes, which share the metaclass `type`. -/
theorem c10_is_typed_dict_metaclass_witness :
    is_typed_dict (.concrete "A") = is_typed_dict (.concrete "B") :=
  c10_is_typed_dict_metaclass.1 (.concrete "A") (.concrete "B") rfl

end TypingCompat
